import Mathlib

/-!
# Verification of the Comparative Answer Orchestrator

Shallow embedding of `app/backend/approaches/chatrrrbingcompare.py`
(`ChatReadRetrieveReadBingCompare`) and proofs of the spec's claims about it.

External collaborators (the RAG sub-approach, the hosted completion service,
the message builder, the token-limit lookup) are not under `src/`; they are
modelled as function parameters or, where the spec pins their behaviour,
as definitions marked `Modelled from the spec`.
-/

set_option autoImplicit false

namespace BingCompare

/-- Kinds of Python runtime errors the orchestrator can propagate:
`IndexError` (empty-sequence indexing at `history[-1]`), `KeyError`
(mapping subscript misses, never actually raised here since the code uses
defaulting `.get`), `TypeError` (e.g. concatenating `None` with `str`,
or `int(None)`), `ValueError` (e.g. `int("abc")`). -/
inductive PyErr where
  | indexError
  | keyError
  | typeError
  | valueError
deriving DecidableEq, Repr

/-- Python values that can appear as the `response_length` override:
`None`, an `int`, or a `str`.  (`overrides: dict[str, Any]`.) -/
inductive PyVal where
  | none
  | int (n : Int)
  | str (s : String)
deriving DecidableEq, Repr

/-- Python truthiness for the modelled values: `None` is falsy, `0` is
falsy, `""` is falsy, everything else truthy. -/
def PyVal.truthy : PyVal → Bool
  | .none => false
  | .int n => n != 0
  | .str s => s != ""

/-- Python's short-circuit `a or b`: `a` when `a` is truthy, else `b`. -/
def pyOr (a b : PyVal) : PyVal :=
  if a.truthy then a else b

/-- Python's `int(...)` conversion on the modelled values: identity on
ints, decimal parse on strings (`ValueError` when unparsable),
`TypeError` on `None`. -/
def pyInt : PyVal → Except PyErr Int
  | .int n => .ok n
  | .str s =>
    match s.toInt? with
    | some n => .ok n
    | Option.none => .error PyErr.valueError
  | .none => .error PyErr.typeError

/-- Value of a hexadecimal digit character, `none` for non-hex characters.
Used by the model of `urllib.parse.unquote`. -/
def hexVal (c : Char) : Option Nat :=
  if '0' ≤ c ∧ c ≤ '9' then some (c.toNat - 48)
  else if 'A' ≤ c ∧ c ≤ 'F' then some (c.toNat - 55)
  else if 'a' ≤ c ∧ c ≤ 'f' then some (c.toNat - 87)
  else none

/-- Character-level model of `urllib.parse.unquote`: each `%HH` escape
(two hex digits) is replaced by the character with code `HH`; a `%` not
followed by two hex digits is kept literally.  (Multi-byte UTF-8 escape
sequences are modelled escape-by-escape; the claims under verification
concern only the structure of the decoding, which this preserves.) -/
def unquoteChars : List Char → List Char
  | [] => []
  | '%' :: h1 :: h2 :: rest =>
    match hexVal h1, hexVal h2 with
    | some a, some b => Char.ofNat (16 * a + b) :: unquoteChars rest
    | _, _ => '%' :: unquoteChars (h1 :: h2 :: rest)
  | c :: rest => c :: unquoteChars rest
termination_by l => l.length
decreasing_by
  all_goals simp [List.length]
  all_goals omega

/-- `urllib.parse.unquote` on strings. -/
def unquote (s : String) : String :=
  ⟨unquoteChars s.data⟩

/-- The decimal digit character for `d` (`d` is used modulo the range;
callers only pass `d < 10`). -/
def digitChar (d : Nat) : Char :=
  match d with
  | 0 => '0' | 1 => '1' | 2 => '2' | 3 => '3' | 4 => '4'
  | 5 => '5' | 6 => '6' | 7 => '7' | 8 => '8' | _ => '9'

/-- Fuel-driven accumulator pass producing the decimal digits of `n` in
order; `fuel = n + 1` always suffices since `n / 10 < n` for `n ≥ 10`. -/
def natToDigitsGo : Nat → Nat → List Char → List Char
  | 0, _, acc => acc
  | fuel + 1, n, acc =>
    if n < 10 then digitChar n :: acc
    else natToDigitsGo fuel (n / 10) (digitChar (n % 10) :: acc)

/-- Model of Python's `str(n)` for a non-negative integer (as produced by
`f"{idx}"` in the citation-marker loop, where `idx ≥ 1`). -/
def natStr (n : Nat) : String :=
  ⟨natToDigitsGo (n + 1) n []⟩

example : natStr 0 = "0" := by decide
example : natStr 12 = "12" := by decide
example : unquote "a%20b" = "a b" := by
  simp [unquote, unquoteChars, hexVal]
example : unquote "a%2" = "a%2" := by
  simp [unquote, unquoteChars, hexVal]
example : unquote "%%41" = "%A" := by
  simp [unquote, unquoteChars, hexVal]

/-- A chat message: a role paired with text content (a Python
`{"role": ..., "content": ...}` dictionary). -/
structure Message where
  role : String
  content : String
deriving DecidableEq, Repr

/-- Modelled from the spec: the role constants of the external `Approach`
base class (`approaches/approach.py`, not under `src/`); §3 of the spec
fixes the role set to user / assistant / system. -/
def Approach.USER : String := "user"

/-- Modelled from the spec: see `Approach.USER`. -/
def Approach.ASSISTANT : String := "assistant"

/-- Modelled from the spec: see `Approach.USER`. -/
def Approach.SYSTEM : String := "system"

/-- Modelled from the spec: the external `MessageBuilder` collaborator
(`core/messagebuilder.py`, not under `src/`).  Per §6 it holds an ordered
message list; per §4.1 construction seeds it with the system message. -/
structure MessageBuilder where
  messages : List Message
deriving DecidableEq, Repr

/-- Modelled from the spec: `MessageBuilder(system_prompt, model_id)`
"accepts a system prompt and model id at construction" (§6); the model id
plays no further observable role in this unit. -/
def MessageBuilder.make (system_prompt : String) (_model_id : String) : MessageBuilder :=
  ⟨[⟨Approach.SYSTEM, system_prompt⟩]⟩

/-- Modelled from the spec: `append_message(role, content, index?)` (§6);
per §4 the default call appends at the end and an explicit index inserts
the message at that position. -/
def MessageBuilder.append_message (mb : MessageBuilder) (role content : String)
    (index : Option Nat) : MessageBuilder :=
  match index with
  | some i => ⟨mb.messages.insertIdx i ⟨role, content⟩⟩
  | none => ⟨mb.messages ++ [⟨role, content⟩]⟩

/-- The conversation-history turn: a `dict[str, str]` read only through
`.get("user")` and `.get("bot")`, so modelled by those two optional
entries. -/
structure Turn where
  user : Option String
  bot : Option String
deriving DecidableEq, Repr

/-- The `overrides` mapping, restricted to the keys this unit reads:
`user_persona` and `system_persona` (read with default `""`) and
`response_length` (read with `.get`, absent ↦ `None`). -/
structure Overrides where
  user_persona : Option String
  system_persona : Option String
  response_length : Option PyVal
deriving DecidableEq, Repr

/-- The sub-approach's result, restricted to the two keys this unit reads:
`rrr_response.get("answer")` and `rrr_response.get("citation_lookup")`.
The citation mapping is an insertion-ordered `dict`; it is modelled as an
association list whose order is the dict's iteration order. -/
structure RRRResponse where
  answer : String
  citation_lookup : List (String × String)
deriving DecidableEq, Repr

/-- The parameters of the completion-service call
(`openai.ChatCompletion.acreate`): deployment id, model name, messages,
temperature, and choice count — exactly the keywords passed at
`make_chat_completion`. -/
structure CompletionRequest where
  deployment_id : String
  model : String
  messages : List Message
  temperature : ℚ
  n : Nat
deriving DecidableEq

/-- The result envelope returned by `run`: `data_points` (always `None`
here), `answer`, `thoughts`, `citation_lookup`. -/
structure Envelope where
  data_points : Option String
  answer : String
  thoughts : String
  citation_lookup : List (String × String)
deriving DecidableEq, Repr

/-- The constructor parameter set of the internal RAG sub-approach
(`ChatReadRetrieveReadApproach`), in the order `run` passes them. -/
structure ChatReadRetrieveReadParams where
  search_client : String
  oai_service_name : String
  oai_service_key : String
  chatgpt_deployment : String
  source_file_field : String
  content_field : String
  page_number_field : String
  chunk_file_field : String
  content_storage_container : String
  blob_client : String
  query_term_language : String
  model_name : String
  model_version : String
  is_gov_cloud_deployment : String
  target_embedding_model : String
  enrichment_appservice_name : String
  target_translation_language : String
  enrichment_endpoint : String
  enrichment_key : String
deriving DecidableEq, Repr

/-- The orchestrator's instance state: the configuration fields assigned
in `__init__`, plus the `citations` field (class attribute `citations = {}`,
reassigned by `run`).  Opaque client objects (search client, blob client)
are modelled as opaque identifiers, since this unit only passes them
through. -/
structure ChatReadRetrieveReadBingCompare where
  search_client : String
  chatgpt_deployment : String
  source_file_field : String
  content_field : String
  page_number_field : String
  chunk_file_field : String
  content_storage_container : String
  blob_client : String
  query_term_language : String
  chatgpt_token_limit : Nat
  escaped_target_model : String
  target_translation_language : String
  enrichment_endpoint : String
  enrichment_key : String
  oai_service_name : String
  oai_service_key : String
  is_gov_cloud_deployment : String
  model_name : String
  model_version : String
  enrichment_appservice_name : String
  citations : List (String × String)
deriving DecidableEq, Repr

/-- `re.sub(r'[^a-zA-Z0-9_\-.]', '_', target_embedding_model)`: every
character outside `[a-zA-Z0-9_\-.]` becomes `_`. -/
def escapeModel (s : String) : String :=
  ⟨s.data.map fun c =>
    if c.isAlphanum ∨ c = '_' ∨ c = '-' ∨ c = '.' then c else '_'⟩

/-- `__init__`: stores the configuration.  `get_token_limit` is the
external token-limit lookup (`core/modelhelper.py`, not under `src/`),
passed here as a function parameter. -/
def ChatReadRetrieveReadBingCompare.make
    (get_token_limit : String → Nat)
    (search_client oai_service_name oai_service_key chatgpt_deployment
      source_file_field content_field page_number_field chunk_file_field
      content_storage_container blob_client query_term_language model_name
      model_version is_gov_cloud_deployment target_embedding_model
      enrichment_appservice_name target_translation_language
      enrichment_endpoint enrichment_key : String) :
    ChatReadRetrieveReadBingCompare where
  search_client := search_client
  chatgpt_deployment := chatgpt_deployment
  source_file_field := source_file_field
  content_field := content_field
  page_number_field := page_number_field
  chunk_file_field := chunk_file_field
  content_storage_container := content_storage_container
  blob_client := blob_client
  query_term_language := query_term_language
  chatgpt_token_limit := get_token_limit model_name
  escaped_target_model := escapeModel target_embedding_model
  target_translation_language := target_translation_language
  enrichment_endpoint := enrichment_endpoint
  enrichment_key := enrichment_key
  oai_service_name := oai_service_name
  oai_service_key := oai_service_key
  is_gov_cloud_deployment := is_gov_cloud_deployment
  model_name := model_name
  model_version := model_version
  enrichment_appservice_name := enrichment_appservice_name
  citations := []

/-- The argument list `run` passes to the `ChatReadRetrieveReadApproach`
constructor (lines 94–112 of the source): the stored configuration, with
`escaped_target_model` in the `target_embedding_model` position.  Note
that `chatgpt_token_limit` is not among them. -/
def paramsOf (st : ChatReadRetrieveReadBingCompare) : ChatReadRetrieveReadParams where
  search_client := st.search_client
  oai_service_name := st.oai_service_name
  oai_service_key := st.oai_service_key
  chatgpt_deployment := st.chatgpt_deployment
  source_file_field := st.source_file_field
  content_field := st.content_field
  page_number_field := st.page_number_field
  chunk_file_field := st.chunk_file_field
  content_storage_container := st.content_storage_container
  blob_client := st.blob_client
  query_term_language := st.query_term_language
  model_name := st.model_name
  model_version := st.model_version
  is_gov_cloud_deployment := st.is_gov_cloud_deployment
  target_embedding_model := st.escaped_target_model
  enrichment_appservice_name := st.enrichment_appservice_name
  target_translation_language := st.target_translation_language
  enrichment_endpoint := st.enrichment_endpoint
  enrichment_key := st.enrichment_key

/-- The internal RAG sub-approach, an external collaborator: one async
operation `run(history, overrides)` returning answer and citations,
modelled (deterministically) as a function of the constructor parameters
and the call arguments. -/
abbrev SubApproachFn :=
  ChatReadRetrieveReadParams → List Turn → Overrides → RRRResponse

/-- The hosted completion service, an external collaborator: modelled as
a function from the request to the first choice's message content. -/
abbrev CompletionFn := CompletionRequest → String

/-- The type of `get_messages_builder`-shaped message construction:
system prompt → model id → user conversation → few shots → max tokens →
messages. -/
abbrev BuilderFn := String → String → String → List Message → Nat → List Message

/-- `COMPARATIVE_SYSTEM_MESSAGE_CHAT_CONVERSATION.format(...)`: the class
template with its placeholders substituted.  The `response_length_prompt`
keyword is also passed at the call site, but the template has no matching
placeholder, so `str.format` discards it — hence the final parameter is
unused. -/
def comparativeSystemMessage
    (systemPersona userPersona query_term_language
      follow_up_questions_prompt _response_length_prompt : String) : String :=
  "You are an Azure OpenAI Completion system. Your persona is " ++ systemPersona ++
  ". User persona is " ++ userPersona ++
  ".\n    Compare and contrast the answers provided below from two sources of data. The first source is internal data indexed using a RAG pattern while the second source is from Bing Chat.\n    Only explain the differences between the two sources and nothing else. Do not provide personal opinions or assumptions.\n    Only answer in the language " ++
  query_term_language ++
  ".\n    If you cannot find answer in below sources, respond with I am not sure. Do not provide personal opinions or assumptions.\n\n    " ++
  follow_up_questions_prompt ++ "\n    "

/-- Modelled from the spec: `get_response_length_prompt_text` lives on
the external `Approach` base class (not under `src/`); the spec (§4.1,
§9) records only that its result is computed and then discarded because
the template lacks the placeholder, so its exact text is unobservable.
Modelled as a fixed rendering of its argument. -/
def get_response_length_prompt_text (response_length : Int) : String :=
  "Answer with a response length of about " ++ toString response_length ++ " tokens."

/-- `COMPARATIVE_RESPONSE_PROMPT_FEW_SHOTS`: the two fixed few-shot
messages. -/
def COMPARATIVE_RESPONSE_PROMPT_FEW_SHOTS : List Message :=
  [⟨Approach.USER, "I am looking for comparative information in the Bing Search Response and want to compare against the Internal Documents"⟩,
   ⟨Approach.ASSISTANT, "user is looking to compare information in Bing Search Response against Internal Documents."⟩]

/-- Line 124: `bing_compare_query = user_query + "Internal Documents:\n"
+ rrr_response.get("answer") + "\n\n" + " Bing Search Response:\n" +
bing_answer + "\n\n"`. -/
def bingCompareQuery (user_query answer bing_answer : String) : String :=
  user_query ++ "Internal Documents:\n" ++ answer ++ "\n\n" ++
    " Bing Search Response:\n" ++ bing_answer ++ "\n\n"

/-- Line 121: `response_length = int(overrides.get("response_length") or
1024)`. -/
def responseLengthOf (overrides : Overrides) : Except PyErr Int :=
  pyInt (pyOr (overrides.response_length.getD PyVal.none) (PyVal.int 1024))

/-- Python's `str(message)` for a two-entry message dictionary, for
contents without quote characters (the only use is the human-readable
`thoughts` trace). -/
def pyDictStr (m : Message) : String :=
  "\x7b'role': '" ++ m.role ++ "', 'content': '" ++ m.content ++ "'\x7d"

/-- `get_messages_builder(system_prompt, model_id, user_conv, few_shots,
max_tokens)`: seeds the builder with the system prompt, appends the few
shots in order, inserts the user message at `len(few_shots) + 1`, and
returns the message list.  As in the source, `max_tokens` is accepted but
never used. -/
def get_messages_builder (system_prompt model_id user_conv : String)
    (few_shots : List Message) (max_tokens : Nat) : List Message :=
  let _ := max_tokens
  let message_builder := MessageBuilder.make system_prompt model_id
  let message_builder := few_shots.foldl
    (fun mb shot => mb.append_message shot.role shot.content none) message_builder
  let user_content := user_conv
  let append_index := few_shots.length + 1
  let message_builder :=
    message_builder.append_message Approach.USER user_content (some append_index)
  message_builder.messages

/-- The messages `run` builds (lines 126–141): the formatted system
template (with `follow_up_questions_prompt=''` and the discarded
response-length prompt), the model name, the combined query, the few
shots, and the fixed `max_tokens=4097 - 500` budget, all handed to the
builder `b`. -/
def messagesOf (b : BuilderFn) (st : ChatReadRetrieveReadBingCompare)
    (answer user_query bing_answer user_persona system_persona : String)
    (response_length : Int) : List Message :=
  b (comparativeSystemMessage system_persona user_persona st.query_term_language ""
      (get_response_length_prompt_text response_length))
    st.model_name
    (bingCompareQuery user_query answer bing_answer)
    COMPARATIVE_RESPONSE_PROMPT_FEW_SHOTS
    (4097 - 500)

/-- The completion request `make_chat_completion` issues for a given
message list: deployment id, model name, messages, `temperature=0.6`,
`n=1`. -/
def completionRequestFor (st : ChatReadRetrieveReadBingCompare)
    (messages : List Message) : CompletionRequest where
  deployment_id := st.chatgpt_deployment
  model := st.model_name
  messages := messages
  temperature := 0.6
  n := 1

/-- `make_chat_completion(messages)`: one completion-service call with
fixed temperature and single choice, returning the first choice's
content. -/
def make_chat_completion (comp : CompletionFn)
    (st : ChatReadRetrieveReadBingCompare) (messages : List Message) : String :=
  comp (completionRequestFor st messages)

/-- The request `run` sends to the completion service, as a function of
the values it is built from. -/
def requestOf (b : BuilderFn) (st : ChatReadRetrieveReadBingCompare)
    (answer user_query bing_answer user_persona system_persona : String)
    (response_length : Int) : CompletionRequest :=
  completionRequestFor st
    (messagesOf b st answer user_query bing_answer user_persona system_persona
      response_length)

/-- Lines 149–150: `for idx, url in enumerate(self.citations.keys(),
start=1): final_response += f" [File{idx}]"`. -/
def appendMarkers (s : String) (keys : List String) : String :=
  (keys.foldl (fun acc _url => (acc.1 ++ " [File" ++ natStr acc.2 ++ "]", acc.2 + 1))
    ((s, 1) : String × Nat)).1

/-- The marker text `" [File{n}] [File{n+1}] …"` produced for a key list,
numbering from `n`. -/
def markersFrom (n : Nat) : List String → String
  | [] => ""
  | _ :: rest => " [File" ++ natStr n ++ "]" ++ markersFrom (n + 1) rest

/-- `run(history, overrides)`, with the message-construction function
abstracted (instantiated with `get_messages_builder` in `run`): returns
the post-call instance state (the `self.citations` assignment at line 115
happens before any failure point that follows it) together with either
the result envelope or the propagated Python error.

Order of effects mirrors the source: the sub-approach call (113) and the
`self.citations` assignment (115) come first; `history[-1]` / `history[0]`
(117–118) raise `IndexError` on an empty history; `int(... or 1024)`
(121) may raise; the concatenation at 124 raises `TypeError` when
`.get("user")` / `.get("bot")` returned `None`. -/
def runWith (b : BuilderFn) (sub : SubApproachFn) (comp : CompletionFn)
    (st : ChatReadRetrieveReadBingCompare) (history : List Turn)
    (overrides : Overrides) :
    ChatReadRetrieveReadBingCompare × Except PyErr Envelope :=
  let rrr := sub (paramsOf st) history overrides
  let st1 := { st with citations := rrr.citation_lookup }
  (st1,
    match history.getLast?, history.head? with
    | some lastTurn, some firstTurn =>
      match responseLengthOf overrides with
      | .error e => .error e
      | .ok response_length =>
        match lastTurn.user, firstTurn.bot with
        | some user_query, some bing_answer =>
          let user_persona := (overrides.user_persona.getD "")
          let system_persona := (overrides.system_persona.getD "")
          let messages := messagesOf b st1 rrr.answer user_query bing_answer
            user_persona system_persona response_length
          let msg_to_display := String.intercalate "\n\n" (messages.map pyDictStr)
          let bing_compare_resp := make_chat_completion comp st1 messages
          let final_response := unquote bing_compare_resp
          let final_response := appendMarkers final_response (st1.citations.map Prod.fst)
          .ok { data_points := none,
                answer := unquote final_response,
                thoughts := "Searched for:<br>A Comparitive Analysis<br><br>Conversations:<br>" ++
                  String.replace msg_to_display "\n" "<br>",
                citation_lookup := st1.citations }
        | _, _ => .error PyErr.typeError
    | _, _ => .error PyErr.indexError)

/-- `run` proper: `runWith` at the unit's own `get_messages_builder`. -/
def run (sub : SubApproachFn) (comp : CompletionFn)
    (st : ChatReadRetrieveReadBingCompare) (history : List Turn)
    (overrides : Overrides) :
    ChatReadRetrieveReadBingCompare × Except PyErr Envelope :=
  runWith get_messages_builder sub comp st history overrides

/-! ## Lemmas about `unquote` and the citation markers -/

theorem unquoteChars_cons_of_ne (c : Char) (l : List Char) (hc : c ≠ '%') :
    unquoteChars (c :: l) = c :: unquoteChars l :=
  unquoteChars.eq_3 c l (fun _ _ _ h _ => hc h)

/-- A `%`-free text decodes to itself. -/
theorem unquoteChars_of_not_pct (m : List Char) (hm : ∀ c ∈ m, c ≠ '%') :
    unquoteChars m = m := by
  induction m with
  | nil => exact unquoteChars.eq_1
  | cons c rest ih =>
    rw [unquoteChars_cons_of_ne c rest (hm c (by simp)),
      ih fun x hx => hm x (by simp [hx])]

/-- Appending a `%`-free text whose first character is not a hex digit
commutes with decoding: no escape can straddle the boundary, and the
appended part decodes to itself. -/
theorem unquoteChars_append (m : List Char) (hm : ∀ c ∈ m, c ≠ '%')
    (hh : ∀ c, m.head? = some c → hexVal c = none) :
    ∀ s : List Char, unquoteChars (s ++ m) = unquoteChars s ++ m := by
  have key : ∀ (n : Nat) (s : List Char), s.length ≤ n →
      unquoteChars (s ++ m) = unquoteChars s ++ m := by
    intro n
    induction n with
    | zero =>
      intro s hs
      have hnil : s = [] := List.length_eq_zero.mp (Nat.le_zero.mp hs)
      subst hnil
      simpa [unquoteChars.eq_1] using unquoteChars_of_not_pct m hm
    | succ n ih =>
      intro s hs
      match s with
      | [] => simpa [unquoteChars.eq_1] using unquoteChars_of_not_pct m hm
      | c :: rest =>
        by_cases hc : c = '%'
        · subst hc
          match rest with
          | h1 :: h2 :: rest2 =>
            have hlong : (h1 :: h2 :: rest2).length ≤ n := by simp at hs ⊢; omega
            have hshort : rest2.length ≤ n := by simp at hs; omega
            rw [List.cons_append, List.cons_append, List.cons_append,
              unquoteChars.eq_2, unquoteChars.eq_2]
            rcases hx1 : hexVal h1 with _ | a <;> rcases hx2 : hexVal h2 with _ | b <;>
              simp only [List.cons_append]
            · exact congrArg (List.cons '%') (ih (h1 :: h2 :: rest2) hlong)
            · exact congrArg (List.cons '%') (ih (h1 :: h2 :: rest2) hlong)
            · exact congrArg (List.cons '%') (ih (h1 :: h2 :: rest2) hlong)
            · exact congrArg (List.cons (Char.ofNat (16 * a + b))) (ih rest2 hshort)
          | [h1] =>
            match m, hm, hh with
            | [], _, _ => simp
            | c1 :: m2, hm, hh =>
              have hx : hexVal c1 = none := hh c1 rfl
              have hn : [h1].length ≤ n := by simp at hs ⊢; omega
              rw [show ('%' :: [h1]) ++ c1 :: m2 = '%' :: h1 :: c1 :: m2 by simp,
                unquoteChars.eq_2, hx,
                unquoteChars.eq_3 '%' [h1] (by intro a b r _ hr; simp at hr)]
              rcases hx1 : hexVal h1 with _ | a <;>
                simp only [List.cons_append] <;>
                exact congrArg (List.cons '%') (ih [h1] hn)
          | [] =>
            match m, hm, hh with
            | [], _, _ => simp
            | [c1], hm, hh =>
              rw [show ['%'] ++ [c1] = '%' :: [c1] by simp,
                unquoteChars.eq_3 '%' [c1] (by intro a b r _ hr; simp at hr),
                unquoteChars.eq_3 '%' [] (by intro a b r _ hr; simp at hr),
                unquoteChars_of_not_pct [c1] hm, unquoteChars.eq_1]
              rfl
            | c1 :: c2 :: m3, hm, hh =>
              have hx : hexVal c1 = none := hh c1 rfl
              rw [show ['%'] ++ c1 :: c2 :: m3 = '%' :: c1 :: c2 :: m3 by simp,
                unquoteChars.eq_2, hx,
                unquoteChars.eq_3 '%' [] (by intro a b r _ hr; simp at hr),
                unquoteChars.eq_1]
              rcases hexVal c1 with _ | a <;>
                simp [unquoteChars_of_not_pct (c1 :: c2 :: m3) hm]
        · rw [List.cons_append, unquoteChars_cons_of_ne c _ hc,
            unquoteChars_cons_of_ne c rest hc,
            ih rest (by simp at hs ⊢; omega)]
          simp
  intro s
  exact key s.length s le_rfl

/-- String-level form of `unquoteChars_append`. -/
theorem unquote_append (s m : String) (hm : ∀ c ∈ m.data, c ≠ '%')
    (hh : ∀ c, m.data.head? = some c → hexVal c = none) :
    unquote (s ++ m) = unquote s ++ m := by
  apply String.ext
  show unquoteChars (s ++ m).data = (unquote s ++ m).data
  rw [String.data_append, String.data_append, unquoteChars_append m.data hm hh s.data]
  rfl

theorem digitChar_ne_pct (d : Nat) : digitChar d ≠ '%' := by
  unfold digitChar
  split <;> decide

theorem natToDigitsGo_chars : ∀ (fuel n : Nat) (acc : List Char),
    ∀ c ∈ natToDigitsGo fuel n acc, (∃ d, c = digitChar d) ∨ c ∈ acc := by
  intro fuel
  induction fuel with
  | zero => intro n acc c hc; exact Or.inr hc
  | succ fuel ih =>
    intro n acc c hc
    by_cases hn : n < 10
    · simp only [natToDigitsGo, if_pos hn, List.mem_cons] at hc
      rcases hc with hc | hc
      · exact Or.inl ⟨n, hc⟩
      · exact Or.inr hc
    · simp only [natToDigitsGo, if_neg hn] at hc
      rcases ih (n / 10) (digitChar (n % 10) :: acc) c hc with h | h
      · exact Or.inl h
      · rcases List.mem_cons.mp h with h | h
        · exact Or.inl ⟨n % 10, h⟩
        · exact Or.inr h

theorem natStr_chars (n : Nat) : ∀ c ∈ (natStr n).data, ∃ d, c = digitChar d := by
  intro c hc
  rcases natToDigitsGo_chars (n + 1) n [] c hc with h | h
  · exact h
  · simp at h

/-- The data of one marker block plus the rest. -/
theorem markersFrom_cons_data (n : Nat) (k : String) (rest : List String) :
    (markersFrom n (k :: rest)).data =
      " [File".data ++ ((natStr n).data ++ ("]".data ++ (markersFrom (n + 1) rest).data)) := by
  simp [markersFrom, String.data_append]

/-- No character of the marker text is a percent sign. -/
theorem markersFrom_not_pct : ∀ (keys : List String) (n : Nat),
    ∀ c ∈ (markersFrom n keys).data, c ≠ '%' := by
  intro keys
  induction keys with
  | nil =>
    intro n c hc
    have h0 : (markersFrom n []).data = [] := rfl
    rw [h0] at hc
    simp at hc
  | cons k rest ih =>
    intro n c hc
    rw [markersFrom_cons_data] at hc
    simp only [List.mem_append] at hc
    rcases hc with h | h | h | h
    · exact (by decide : ∀ x ∈ " [File".data, x ≠ '%') c h
    · rcases natStr_chars n c h with ⟨d, rfl⟩
      exact digitChar_ne_pct d
    · exact (by decide : ∀ x ∈ "]".data, x ≠ '%') c h
    · exact ih (n + 1) c h

/-- The marker text of a non-empty key list starts with a space, which is
not a hex digit. -/
theorem markersFrom_head (n : Nat) (k : String) (rest : List String) :
    ∀ c, (markersFrom n (k :: rest)).data.head? = some c → hexVal c = none := by
  intro c hc
  rw [markersFrom_cons_data,
    show " [File".data = ' ' :: "[File".data from rfl] at hc
  simp only [List.cons_append, List.head?_cons, Option.some.injEq] at hc
  rw [← hc]
  decide

/-- The citation-marker loop appends exactly the marker text numbered
from the start index. -/
theorem appendMarkers_go (keys : List String) : ∀ (s : String) (n : Nat),
    (keys.foldl (fun acc _url => (acc.1 ++ " [File" ++ natStr acc.2 ++ "]", acc.2 + 1))
      ((s, n) : String × Nat)).1 = s ++ markersFrom n keys := by
  induction keys with
  | nil =>
    intro s n
    show s = s ++ markersFrom n []
    rw [show markersFrom n [] = "" from rfl, String.append_empty]
  | cons k rest ih =>
    intro s n
    simp only [List.foldl_cons]
    rw [ih]
    apply String.ext
    simp [markersFrom, String.data_append]

theorem appendMarkers_eq (s : String) (keys : List String) :
    appendMarkers s keys = s ++ markersFrom 1 keys :=
  appendMarkers_go keys s 1

theorem markersFrom_head_all (n : Nat) (keys : List String) :
    ∀ c, (markersFrom n keys).data.head? = some c → hexVal c = none := by
  cases keys with
  | nil =>
    intro c h
    rw [show (markersFrom n []).data = [] from rfl] at h
    simp at h
  | cons k rest => exact markersFrom_head n k rest

/-- Decoding the marker-appended decoded completion splits: the markers
are `%`-free and start with a non-hex character, so they pass through the
second decode unchanged. -/
theorem unquote_appendMarkers (t : String) (keys : List String) :
    unquote (appendMarkers (unquote t) keys) =
      unquote (unquote t) ++ markersFrom 1 keys := by
  rw [appendMarkers_eq,
    unquote_append (unquote t) (markersFrom 1 keys)
      (markersFrom_not_pct keys 1) (markersFrom_head_all 1 keys)]

/-! ## Reduction of `runWith` on the success path -/

/-- When the history positions carry the expected keys and the
`response_length` conversion succeeds, `run` returns the envelope built
from the sub-approach response, the completion call, and the citation
markers, exactly as lines 113–157 compute it. -/
theorem runWith_ok (b : BuilderFn) (sub : SubApproachFn) (comp : CompletionFn)
    (st : ChatReadRetrieveReadBingCompare) (history : List Turn)
    (overrides : Overrides) (tl tf : Turn) (uq ba : String) (rl : Int)
    (hlast : history.getLast? = some tl) (hfirst : history.head? = some tf)
    (hu : tl.user = some uq) (hb : tf.bot = some ba)
    (hrl : responseLengthOf overrides = .ok rl) :
    (runWith b sub comp st history overrides).2 =
      .ok
        { data_points := none
          answer :=
            unquote (appendMarkers
              (unquote (make_chat_completion comp
                { st with citations := (sub (paramsOf st) history overrides).citation_lookup }
                (messagesOf b
                  { st with citations := (sub (paramsOf st) history overrides).citation_lookup }
                  (sub (paramsOf st) history overrides).answer uq ba
                  (overrides.user_persona.getD "") (overrides.system_persona.getD "") rl)))
              ((sub (paramsOf st) history overrides).citation_lookup.map Prod.fst))
          thoughts := "Searched for:<br>A Comparitive Analysis<br><br>Conversations:<br>" ++
            String.replace
              (String.intercalate "\n\n"
                ((messagesOf b
                    { st with citations := (sub (paramsOf st) history overrides).citation_lookup }
                    (sub (paramsOf st) history overrides).answer uq ba
                    (overrides.user_persona.getD "") (overrides.system_persona.getD "") rl).map
                  pyDictStr))
              "\n" "<br>"
          citation_lookup := (sub (paramsOf st) history overrides).citation_lookup } := by
  simp only [runWith, hlast, hfirst, hrl, hu, hb]

/-! ## Fixtures for the closed witness statements -/

/-- A concrete orchestrator configuration. -/
def wSt : ChatReadRetrieveReadBingCompare :=
  ChatReadRetrieveReadBingCompare.make (fun _ => 4096) "search-client" "oai-name"
    "oai-key" "deploy" "file" "content" "page" "chunk" "container" "blob-client"
    "English" "gpt-35-turbo" "0613" "false" "embed-model" "enrich-app" "fr"
    "enrich-endpoint" "enrich-key"

/-- A concrete deterministic sub-approach stub returning two citations. -/
def wSub : SubApproachFn :=
  fun _ _ _ => ⟨"A", [("doc1.pdf", "c1"), ("doc2.pdf", "c2")]⟩

/-- A concrete deterministic completion stub. -/
def wComp : CompletionFn := fun _ => "R"

/-- A concrete valid history: first entry has "bot", last has "user". -/
def wHist : List Turn := [⟨Option.none, some "B"⟩, ⟨some "Q", Option.none⟩]

/-- Concrete overrides with no keys set. -/
def wOv : Overrides := ⟨Option.none, Option.none, Option.none⟩

/-! ## The claims -/

/-- C1: for every history whose last entry has a "user" value and whose
first entry has a "bot" value (and whose `response_length` override
converts), `run` returns an envelope whose `citation_lookup` is exactly
the citation mapping returned by the sub-approach — same keys, same
values, same order; no entry is added, removed, or reordered. -/
theorem run_citation_lookup_unchanged (sub : SubApproachFn) (comp : CompletionFn)
    (st : ChatReadRetrieveReadBingCompare) (history : List Turn)
    (overrides : Overrides) (tl tf : Turn) (uq ba : String) (rl : Int)
    (hlast : history.getLast? = some tl) (hfirst : history.head? = some tf)
    (hu : tl.user = some uq) (hb : tf.bot = some ba)
    (hrl : responseLengthOf overrides = .ok rl) :
    ∃ env : Envelope, (run sub comp st history overrides).2 = .ok env ∧
      env.citation_lookup = (sub (paramsOf st) history overrides).citation_lookup := by
  have henv := runWith_ok get_messages_builder sub comp st history overrides tl tf uq ba rl
    hlast hfirst hu hb hrl
  exact ⟨_, henv, rfl⟩

/-- Witness for `run_citation_lookup_unchanged` at concrete inputs. -/
theorem run_citation_lookup_unchanged_witness :
    ∃ env : Envelope, (run wSub wComp wSt wHist wOv).2 = .ok env ∧
      env.citation_lookup = (wSub (paramsOf wSt) wHist wOv).citation_lookup :=
  run_citation_lookup_unchanged wSub wComp wSt wHist wOv ⟨some "Q", Option.none⟩
    ⟨Option.none, some "B"⟩ "Q" "B" 1024 rfl rfl rfl rfl rfl

/-- C2: for a citation mapping of size `N`, the `answer` field of `run`'s
envelope ends with the suffix `" [File1] [File2] … [FileN]"` — one marker
per key, numbered from 1, in the mapping's iteration order — and for
`N = 0` the marker text is empty, so nothing is appended. -/
theorem run_answer_ends_with_markers (sub : SubApproachFn) (comp : CompletionFn)
    (st : ChatReadRetrieveReadBingCompare) (history : List Turn)
    (overrides : Overrides) (tl tf : Turn) (uq ba : String) (rl : Int)
    (hlast : history.getLast? = some tl) (hfirst : history.head? = some tf)
    (hu : tl.user = some uq) (hb : tf.bot = some ba)
    (hrl : responseLengthOf overrides = .ok rl) :
    ∃ env : Envelope, (run sub comp st history overrides).2 = .ok env ∧
      ∃ p : String, env.answer =
        p ++ markersFrom 1 ((sub (paramsOf st) history overrides).citation_lookup.map Prod.fst) := by
  have henv := runWith_ok get_messages_builder sub comp st history overrides tl tf uq ba rl
    hlast hfirst hu hb hrl
  exact ⟨_, henv, _, unquote_appendMarkers _ _⟩

/-- Witness for `run_answer_ends_with_markers` at concrete inputs. -/
theorem run_answer_ends_with_markers_witness :
    ∃ env : Envelope, (run wSub wComp wSt wHist wOv).2 = .ok env ∧
      ∃ p : String, env.answer =
        p ++ markersFrom 1 ((wSub (paramsOf wSt) wHist wOv).citation_lookup.map Prod.fst) :=
  run_answer_ends_with_markers wSub wComp wSt wHist wOv ⟨some "Q", Option.none⟩
    ⟨Option.none, some "B"⟩ "Q" "B" 1024 rfl rfl rfl rfl rfl

/-- C3: the `answer` field equals
`unquote (unquote t ++ markers)` where `t` is the raw completion text:
percent-decoding is applied twice, once to the raw completion and once
more to the decoded text with the citation markers appended. -/
theorem run_answer_double_decoded (sub : SubApproachFn) (comp : CompletionFn)
    (st : ChatReadRetrieveReadBingCompare) (history : List Turn)
    (overrides : Overrides) (tl tf : Turn) (uq ba : String) (rl : Int)
    (hlast : history.getLast? = some tl) (hfirst : history.head? = some tf)
    (hu : tl.user = some uq) (hb : tf.bot = some ba)
    (hrl : responseLengthOf overrides = .ok rl) :
    ∃ env : Envelope, (run sub comp st history overrides).2 = .ok env ∧
      env.answer =
        unquote
          (unquote (make_chat_completion comp
              { st with citations := (sub (paramsOf st) history overrides).citation_lookup }
              (messagesOf get_messages_builder
                { st with citations := (sub (paramsOf st) history overrides).citation_lookup }
                (sub (paramsOf st) history overrides).answer uq ba
                (overrides.user_persona.getD "") (overrides.system_persona.getD "") rl)) ++
            markersFrom 1 ((sub (paramsOf st) history overrides).citation_lookup.map Prod.fst)) := by
  have henv := runWith_ok get_messages_builder sub comp st history overrides tl tf uq ba rl
    hlast hfirst hu hb hrl
  refine ⟨_, henv, ?_⟩
  rw [show (Envelope.answer _) = unquote (appendMarkers
      (unquote (make_chat_completion comp
        { st with citations := (sub (paramsOf st) history overrides).citation_lookup }
        (messagesOf get_messages_builder
          { st with citations := (sub (paramsOf st) history overrides).citation_lookup }
          (sub (paramsOf st) history overrides).answer uq ba
          (overrides.user_persona.getD "") (overrides.system_persona.getD "") rl)))
      ((sub (paramsOf st) history overrides).citation_lookup.map Prod.fst)) from rfl,
    appendMarkers_eq]

/-- Witness for `run_answer_double_decoded` at concrete inputs. -/
theorem run_answer_double_decoded_witness :
    ∃ env : Envelope, (run wSub wComp wSt wHist wOv).2 = .ok env ∧
      env.answer =
        unquote
          (unquote (make_chat_completion wComp
              { wSt with citations := (wSub (paramsOf wSt) wHist wOv).citation_lookup }
              (messagesOf get_messages_builder
                { wSt with citations := (wSub (paramsOf wSt) wHist wOv).citation_lookup }
                (wSub (paramsOf wSt) wHist wOv).answer "Q" "B"
                (wOv.user_persona.getD "") (wOv.system_persona.getD "") 1024)) ++
            markersFrom 1 ((wSub (paramsOf wSt) wHist wOv).citation_lookup.map Prod.fst)) :=
  run_answer_double_decoded wSub wComp wSt wHist wOv ⟨some "Q", Option.none⟩
    ⟨Option.none, some "B"⟩ "Q" "B" 1024 rfl rfl rfl rfl rfl

/-- C4 (counterexample): at `user_query = "Q"`, sub-approach answer
`"A"`, `bing_answer = "B"`, the synthesized combined user message is not
the claimed concatenation with separator `"\n\nBing Search Response:\n"`:
the code inserts a space before "Bing Search Response:". -/
theorem combined_message_separator_counterexample :
    ¬ (bingCompareQuery "Q" "A" "B" =
      "Q" ++ "Internal Documents:\n" ++ "A" ++ "\n\nBing Search Response:\n" ++
        "B" ++ "\n\n") := by
  decide

/-- C4 (amended): the combined user message passed to message
construction — the last message of the built prompt — is exactly
`user_query ++ "Internal Documents:\n" ++ answer ++ "\n\n" ++
" Bing Search Response:\n" ++ bing_answer ++ "\n\n"`, i.e. with a space
between the blank line and "Bing Search Response:". -/
theorem combined_user_message_exact (sub : SubApproachFn) (comp : CompletionFn)
    (st : ChatReadRetrieveReadBingCompare) (history : List Turn)
    (overrides : Overrides) (tl tf : Turn) (uq ba : String) (rl : Int)
    (hlast : history.getLast? = some tl) (hfirst : history.head? = some tf)
    (hu : tl.user = some uq) (hb : tf.bot = some ba)
    (hrl : responseLengthOf overrides = .ok rl) :
    ∃ env : Envelope, (run sub comp st history overrides).2 = .ok env ∧
      (messagesOf get_messages_builder
          { st with citations := (sub (paramsOf st) history overrides).citation_lookup }
          (sub (paramsOf st) history overrides).answer uq ba
          (overrides.user_persona.getD "") (overrides.system_persona.getD "") rl).getLast? =
        some ⟨Approach.USER,
          uq ++ "Internal Documents:\n" ++ (sub (paramsOf st) history overrides).answer ++
            "\n\n" ++ " Bing Search Response:\n" ++ ba ++ "\n\n"⟩ := by
  have henv := runWith_ok get_messages_builder sub comp st history overrides tl tf uq ba rl
    hlast hfirst hu hb hrl
  exact ⟨_, henv, rfl⟩

/-- Witness for `combined_user_message_exact` at concrete inputs. -/
theorem combined_user_message_exact_witness :
    ∃ env : Envelope, (run wSub wComp wSt wHist wOv).2 = .ok env ∧
      (messagesOf get_messages_builder
          { wSt with citations := (wSub (paramsOf wSt) wHist wOv).citation_lookup }
          (wSub (paramsOf wSt) wHist wOv).answer "Q" "B"
          (wOv.user_persona.getD "") (wOv.system_persona.getD "") 1024).getLast? =
        some ⟨Approach.USER,
          "Q" ++ "Internal Documents:\n" ++ (wSub (paramsOf wSt) wHist wOv).answer ++
            "\n\n" ++ " Bing Search Response:\n" ++ "B" ++ "\n\n"⟩ :=
  combined_user_message_exact wSub wComp wSt wHist wOv ⟨some "Q", Option.none⟩
    ⟨Option.none, some "B"⟩ "Q" "B" 1024 rfl rfl rfl rfl rfl

/-- C5: the token budget handed to message construction is the constant
`4097 - 500 = 3597`: `run`'s behaviour depends on the builder only
through its value at budget `3597` (for every configuration, hence every
model name), and the stored `chatgpt_token_limit` has no effect on the
result at all. -/
theorem token_budget_fixed (b1 b2 : BuilderFn) (sub : SubApproachFn)
    (comp : CompletionFn) (st : ChatReadRetrieveReadBingCompare)
    (history : List Turn) (overrides : Overrides) (n : Nat)
    (hagree : ∀ sp mid uc fs, b1 sp mid uc fs (4097 - 500) = b2 sp mid uc fs (4097 - 500)) :
    runWith b1 sub comp st history overrides = runWith b2 sub comp st history overrides ∧
    (run sub comp { st with chatgpt_token_limit := n } history overrides).2 =
      (run sub comp st history overrides).2 := by
  constructor
  · apply Prod.ext
    · rfl
    · show (runWith b1 sub comp st history overrides).2 =
        (runWith b2 sub comp st history overrides).2
      rcases h1 : history.getLast? with _ | tl <;> rcases h2 : history.head? with _ | tf <;>
        simp only [runWith, h1, h2]
      rcases h3 : responseLengthOf overrides with e | rl <;> simp only [h3]
      rcases h4 : tl.user with _ | uq <;> rcases h5 : tf.bot with _ | ba <;>
        simp only [h4, h5]
      simp only [messagesOf]
      rw [hagree]
  · rfl

/-- Witness for `token_budget_fixed` at concrete inputs. -/
theorem token_budget_fixed_witness :
    runWith get_messages_builder wSub wComp wSt wHist wOv =
      runWith get_messages_builder wSub wComp wSt wHist wOv ∧
    (run wSub wComp { wSt with chatgpt_token_limit := 5 } wHist wOv).2 =
      (run wSub wComp wSt wHist wOv).2 :=
  token_budget_fixed get_messages_builder get_messages_builder wSub wComp wSt wHist wOv 5
    (fun _ _ _ _ => rfl)

/-- C6: when `response_length` is absent from the overrides, the value
`1024` is used and no error is raised on that account; and the computed
response length is not passed to the completion-service call: the request
(whose only fields are deployment id, model name, messages, temperature,
and choice count) is the same whatever the response length. -/
theorem response_length_default_not_passed (o : Overrides)
    (ho : o.response_length = Option.none) :
    responseLengthOf o = .ok 1024 ∧
    ∀ (b : BuilderFn) (st : ChatReadRetrieveReadBingCompare)
      (a uq ba up sp : String) (rl1 rl2 : Int),
      requestOf b st a uq ba up sp rl1 = requestOf b st a uq ba up sp rl2 := by
  constructor
  · rw [responseLengthOf, ho]
    rfl
  · intro b st a uq ba up sp rl1 rl2
    rfl

/-- Witness for `response_length_default_not_passed` at concrete inputs. -/
theorem response_length_default_not_passed_witness :
    responseLengthOf wOv = .ok 1024 ∧
    ∀ (b : BuilderFn) (st : ChatReadRetrieveReadBingCompare)
      (a uq ba up sp : String) (rl1 rl2 : Int),
      requestOf b st a uq ba up sp rl1 = requestOf b st a uq ba up sp rl2 :=
  response_length_default_not_passed wOv rfl

/-- C7 (counterexample): on the non-empty history `[{"bot": "B"}]`, whose
last (and only) entry lacks the "user" key, `run` fails with a
`TypeError` (concatenating the `None` from the defaulting `.get` with a
string), not with a lookup/key error as claimed. -/
theorem malformed_history_error_kind_counterexample :
    (run wSub wComp wSt [⟨Option.none, some "B"⟩] wOv).2 = .error PyErr.typeError ∧
    ¬ ((run wSub wComp wSt [⟨Option.none, some "B"⟩] wOv).2 = .error PyErr.keyError) := by
  have h1 : (run wSub wComp wSt [⟨Option.none, some "B"⟩] wOv).2 = .error PyErr.typeError :=
    rfl
  refine ⟨h1, fun h => ?_⟩
  rw [h1] at h
  simp at h

/-- C7 (amended): for every non-empty history whose last entry lacks
"user" or whose first entry lacks "bot" (and a `response_length` that
converts), `run` fails, and the propagated failure is a `TypeError`
raised when the missing (`None`) value is concatenated into the combined
message — not a key-lookup error, because the positional reads use the
defaulting `.get`. -/
theorem malformed_history_type_error (sub : SubApproachFn) (comp : CompletionFn)
    (st : ChatReadRetrieveReadBingCompare) (history : List Turn)
    (overrides : Overrides) (tl tf : Turn) (rl : Int)
    (hlast : history.getLast? = some tl) (hfirst : history.head? = some tf)
    (hmiss : tl.user = Option.none ∨ tf.bot = Option.none)
    (hrl : responseLengthOf overrides = .ok rl) :
    (run sub comp st history overrides).2 = .error PyErr.typeError := by
  simp only [run, runWith, hlast, hfirst, hrl]
  rcases hmiss with h | h
  · simp [h]
  · rcases h4 : tl.user with _ | uq
    · simp [h4]
    · simp [h4, h]

/-- Witness for `malformed_history_type_error` at concrete inputs. -/
theorem malformed_history_type_error_witness :
    (run wSub wComp wSt [⟨Option.none, some "B"⟩] wOv).2 = .error PyErr.typeError :=
  malformed_history_type_error wSub wComp wSt [⟨Option.none, some "B"⟩] wOv
    ⟨Option.none, some "B"⟩ ⟨Option.none, some "B"⟩ 1024 rfl rfl (Or.inl rfl) rfl

/-- C8: `run` leaves every configuration field set at construction
unchanged: the post-state equals the pre-state with only the `citations`
field reassigned (to the sub-approach's citation mapping), and each of
the twenty configuration fields keeps its value.  (`make_chat_completion`
and `get_messages_builder` are modelled as pure functions of the state:
they assign nothing.) -/
theorem run_config_immutable (sub : SubApproachFn) (comp : CompletionFn)
    (st : ChatReadRetrieveReadBingCompare) (history : List Turn)
    (overrides : Overrides) :
    (run sub comp st history overrides).1 =
      { st with citations := (sub (paramsOf st) history overrides).citation_lookup } ∧
    (run sub comp st history overrides).1.search_client = st.search_client ∧
    (run sub comp st history overrides).1.chatgpt_deployment = st.chatgpt_deployment ∧
    (run sub comp st history overrides).1.source_file_field = st.source_file_field ∧
    (run sub comp st history overrides).1.content_field = st.content_field ∧
    (run sub comp st history overrides).1.page_number_field = st.page_number_field ∧
    (run sub comp st history overrides).1.chunk_file_field = st.chunk_file_field ∧
    (run sub comp st history overrides).1.content_storage_container = st.content_storage_container ∧
    (run sub comp st history overrides).1.blob_client = st.blob_client ∧
    (run sub comp st history overrides).1.query_term_language = st.query_term_language ∧
    (run sub comp st history overrides).1.chatgpt_token_limit = st.chatgpt_token_limit ∧
    (run sub comp st history overrides).1.escaped_target_model = st.escaped_target_model ∧
    (run sub comp st history overrides).1.target_translation_language = st.target_translation_language ∧
    (run sub comp st history overrides).1.enrichment_endpoint = st.enrichment_endpoint ∧
    (run sub comp st history overrides).1.enrichment_key = st.enrichment_key ∧
    (run sub comp st history overrides).1.oai_service_name = st.oai_service_name ∧
    (run sub comp st history overrides).1.oai_service_key = st.oai_service_key ∧
    (run sub comp st history overrides).1.is_gov_cloud_deployment = st.is_gov_cloud_deployment ∧
    (run sub comp st history overrides).1.model_name = st.model_name ∧
    (run sub comp st history overrides).1.model_version = st.model_version ∧
    (run sub comp st history overrides).1.enrichment_appservice_name = st.enrichment_appservice_name :=
  ⟨rfl, rfl, rfl, rfl, rfl, rfl, rfl, rfl, rfl, rfl, rfl,
    rfl, rfl, rfl, rfl, rfl, rfl, rfl, rfl, rfl, rfl⟩

/-- C9: with the sub-approach and the completion service deterministic
functions, running `run` twice in sequence on the same orchestrator with
the same history and overrides yields identical results (hence equal
`data_points`, `answer`, `thoughts`, and `citation_lookup`): the result
reads none of the state the first call wrote. -/
theorem run_deterministic_idempotent (sub : SubApproachFn) (comp : CompletionFn)
    (st : ChatReadRetrieveReadBingCompare) (history : List Turn)
    (overrides : Overrides) :
    (run sub comp ((run sub comp st history overrides).1) history overrides).2 =
      (run sub comp st history overrides).2 :=
  rfl

/-- C10: a present-but-falsy `response_length` override (`0`, `""`, or
`None`) is silently replaced by the default `1024` — the default is
applied by a truthiness test, not a key-presence test — so an explicit
`0` is neither used nor rejected. -/
theorem falsy_response_length_defaults (o : Overrides) (v : PyVal)
    (hv : v = PyVal.int 0 ∨ v = PyVal.str "" ∨ v = PyVal.none) :
    responseLengthOf { o with response_length := some v } = .ok 1024 := by
  rcases hv with rfl | rfl | rfl <;> rfl

/-- Witness for `falsy_response_length_defaults` at a concrete input. -/
theorem falsy_response_length_defaults_witness :
    responseLengthOf { wOv with response_length := some (PyVal.int 0) } = .ok 1024 :=
  falsy_response_length_defaults wOv (PyVal.int 0) (Or.inl rfl)

end BingCompare
